import Mathlib

/-!
Verification of the FluCardPro-AutoImport repository.

The repository has two near-duplicate source files, `src/fluImport.py`
(class `FluCard`) and `src/k1Import.py` (class `PentaxWiFi`).  This file
gives a shallow embedding of the decision logic of both:

* the sequence-number extraction `int(photoName[4:8])` (fluImport.py:152-154,
  k1Import.py:351-353), including a model of Python's `int(str)` conversion
  for ASCII inputs;
* the watermark state dictionary (`firstFile`, `lastFile`, `rollover`, and
  for the persistence layer also `lastSeconds`, `destDir`);
* the import pass `get_new_photos` (fluImport.py:138-184,
  k1Import.py:331-383); the two variants differ in exactly one place: on an
  eligible file whose number equals `firstFile`, fluImport beeps and
  `break`s (lines 168-173) while k1Import only prints a debug line — the
  beep and the `break` are commented out (lines 367-372) — and then falls
  through to the download;
* the preferences load `get_flu_base_data` / `get_k1_base_data`
  (fluImport.py:68-104, k1Import.py:143-184).

Network and filesystem effects are abstracted: the fetch callback
(`downloadPhoto` / `download_photo`) is a parameter `String → Bool`
(its Python counterpart returns `False` on a write failure), and the state
file persisted by `update_flu_base_data` after each successful download is
recorded in a trace of intermediate states.
-/

/-! ### Python string and integer primitives -/

/-- ASCII whitespace characters stripped by Python's `int(str)` conversion
(space, tab, newline, carriage return, vertical tab, form feed). -/
def isPyWs (c : Char) : Bool :=
  c = ' ' || c = '\t' || c = '\n' || c = '\r' || c = Char.ofNat 11 || c = Char.ofNat 12

/-- Strip leading and trailing Python whitespace, as `int(str)` does before
parsing. -/
def stripWs (l : List Char) : List Char :=
  ((l.dropWhile isPyWs).reverse.dropWhile isPyWs).reverse

/-- Digit-run recognizer for Python `int` literals: a nonempty sequence of
decimal digits in which single underscores may occur between digits
(`"1_23"` is accepted, `"_1"`, `"1_"`, `"1__2"` are not).  The flag records
whether the next character is required to be a digit. -/
def pyDigitsOk : Bool → List Char → Bool
  | needDigit, [] => !needDigit
  | needDigit, c :: rest =>
    if c = '_' then !needDigit && pyDigitsOk true rest
    else c.isDigit && pyDigitsOk false rest

/-- Base-10 value of a digit run, ignoring underscores. -/
def digitsVal (l : List Char) : Int :=
  ((l.filter (fun c => c != '_')).foldl (fun a c => 10 * a + (c.toNat - 48)) 0 : Nat)

/-- Model of Python's `int(s)` for ASCII inputs: strip whitespace, allow one
optional sign, then a digit run (with embedded underscores); `none` models
the `ValueError` raised on any other input. -/
def pythonInt (l0 : List Char) : Option Int :=
  match stripWs l0 with
  | [] => none
  | c :: rest =>
    if c = '+' then (if pyDigitsOk true rest then some (digitsVal rest) else none)
    else if c = '-' then (if pyDigitsOk true rest then some (-(digitsVal rest)) else none)
    else (if pyDigitsOk true (c :: rest) then some (digitsVal (c :: rest)) else none)

/-- Model of `os.path.basename`: the part of the path after the last `/`. -/
def basename (p : String) : String :=
  String.mk ((p.toList.reverse.takeWhile (fun c => c != '/')).reverse)

/-- Sequence extraction `int(photoName[4:8])` (fluImport.py:154,
k1Import.py:353): Python slicing takes characters 5-8 of the basename, and
`int` converts them; `none` models the uncaught `ValueError`
(`MalformedNameError` in the specification). -/
def extractSequence (name : String) : Option Int :=
  pythonInt ((name.toList.drop 4).take 4)

/-! ### Watermark state and the eligibility rule -/

/-- The three watermark fields of the preferences dictionary read and
written by `get_new_photos`: `firstFile`, `lastFile` (stored as the string
`"None"` or a numeral — modelled as `Option Int`) and `rollover`
(fluImport.py:117-123, k1Import.py:200-208). -/
structure FluBase where
  firstFile : Option Int
  lastFile : Option Int
  rollover : Bool
deriving Repr, DecidableEq

/-- The sentinel translation at fluImport.py:142-150 / k1Import.py:342-349:
a stored `"None"` becomes `-1` ("accept any file number on first
download"). -/
def sentinel : Option Int → Int
  | none => -1
  | some v => v

/-- The eligibility computation of fluImport.py:155-166 /
k1Import.py:354-365: `download` starts `False` and two successive `if`
statements may set it. -/
def downloadFlag (s : FluBase) (n : Int) : Bool :=
  let lastNum := sentinel s.lastFile
  let firstNum := sentinel s.firstFile
  let d0 : Bool := false
  let d1 : Bool := if s.rollover = false ∧ n > lastNum ∧ n > firstNum then true else d0
  let d2 : Bool := if s.rollover = true ∧ ((n < firstNum ∧ n > lastNum) ∨ lastNum = 9999) then true else d1
  d2

/-- The state mutation after a successful download (fluImport.py:178-182,
k1Import.py:377-381): set `rollover` when the number is 9999, record it as
`lastFile`, and record it as `firstFile` if none was set yet. -/
def applySuccess (s : FluBase) (n : Int) : FluBase :=
  { rollover := if n = 9999 then true else s.rollover
    lastFile := some n
    firstFile := if s.firstFile = none then some n else s.firstFile }

/-- How one call of `get_new_photos` ended: the listing was exhausted, the
cycle-closure branch beeped and broke out (fluImport.py:169-173), a failed
download broke out (fluImport.py:175-177, k1Import.py:374-376), or
`int(photoName[4:8])` raised on a malformed name. -/
inductive RunStop
  | finished
  | cycleComplete
  | fetchFailed
  | malformedName
deriving Repr, DecidableEq

/-- Observable outcome of one import pass: final watermark state, the URLs
passed to the download callback in order, how the pass ended, the
intermediate states persisted by `update_flu_base_data` after each
successful download, and the items of the listing left unprocessed when the
pass stopped early. -/
structure RunOut where
  state : FluBase
  attempts : List String
  stop : RunStop
  trace : List FluBase
  pending : List String
deriving Repr, DecidableEq

/-- The per-item loop of `get_new_photos` (fluImport.py:142-184,
k1Import.py:341-383), parameterized by the one difference between the two
sources: `haltOnCycle = true` is fluImport (on an eligible item equal to
`firstFile`, beep and `break`); `haltOnCycle = false` is k1Import, where the
beep and the `break` are commented out so the item is downloaded like any
other. -/
def getNewPhotosAux (haltOnCycle : Bool) (fetch : String → Bool) :
    FluBase → List String → RunOut
  | s, [] => ⟨s, [], .finished, [], []⟩
  | s, url :: rest =>
    match extractSequence (basename url) with
    | none => ⟨s, [], .malformedName, [], url :: rest⟩
    | some n =>
      if downloadFlag s n then
        if haltOnCycle ∧ n = sentinel s.firstFile then
          ⟨s, [], .cycleComplete, [], url :: rest⟩
        else if fetch url then
          let s' := applySuccess s n
          let out := getNewPhotosAux haltOnCycle fetch s' rest
          ⟨out.state, url :: out.attempts, out.stop, s' :: out.trace, out.pending⟩
        else
          ⟨s, [url], .fetchFailed, [], url :: rest⟩
      else
        getNewPhotosAux haltOnCycle fetch s rest

/-- `FluCard.get_new_photos` (fluImport.py:138-184). -/
def fluGetNewPhotos (fetch : String → Bool) (s : FluBase) (l : List String) : RunOut :=
  getNewPhotosAux true fetch s l

/-- `PentaxWiFi.get_new_photos` (k1Import.py:331-383). -/
def k1GetNewPhotos (fetch : String → Bool) (s : FluBase) (l : List String) : RunOut :=
  getNewPhotosAux false fetch s l

/-- The watermark fields of a freshly created preferences file
(`new_flubase_file`, fluImport.py:117-123): no first, no last, no
rollover. -/
def freshEngineState : FluBase := ⟨none, none, false⟩

/-- A sequence of import passes as performed by the polling loop
(fluImport.py:335-339, k1Import.py:534-544): each pass has its own fetch
behavior and remote listing; the accumulated trace collects every state
persisted after a successful download, across all passes. -/
def runPasses (haltOnCycle : Bool) :
    FluBase → List ((String → Bool) × List String) → FluBase × List FluBase
  | s, [] => (s, [])
  | s, (f, l) :: ps =>
    let r := getNewPhotosAux haltOnCycle f s l
    let rec2 := runPasses haltOnCycle r.state ps
    (rec2.1, r.trace ++ rec2.2)

/-! ### The preferences load -/

/-- The full persisted preferences dictionary (fluImport.py:117-123,
k1Import.py:200-208; k1Import additionally stores unused `firstDir` and
`lastDir` fields, which no decision logic reads).  `destDir = none` models
a JSON object without a `"destDir"` key; the other keys are assumed
present. -/
structure StoredState where
  firstFile : Option Int
  lastFile : Option Int
  rollover : Bool
  lastSeconds : Int
  destDir : Option String
deriving Repr, DecidableEq

/-- What reading the preferences file can encounter: no file on disk, a
file `json.load` cannot parse (it raises, and nothing catches it), or a
parsed dictionary. -/
inductive StoredFile
  | absent
  | corrupt
  | valid (d : StoredState)
deriving Repr, DecidableEq

/-- The ways `get_flu_base_data` / `get_k1_base_data` can raise:
`ValueError` when no file exists and no `-d` was given (fluImport.py:80-83),
the `json.load` parse error propagating (fluImport.py:88-89), and the error
on a loaded dictionary without `"destDir"` when no `-d` was given — a
`KeyError` at fluImport.py:92, an explicit `AttributeError` at
k1Import.py:171-173. -/
inductive LoadError
  | noDestDirArg
  | jsonError
  | destDirKeyError
deriving Repr, DecidableEq

/-- Result of the load: the state dictionary plus the resolved destination
directory, or the raised error. -/
inductive LoadResult
  | ok (d : StoredState) (destdir : String)
  | err (e : LoadError)
deriving Repr, DecidableEq

/-- `new_flubase_file` / `new_k1base_file` (fluImport.py:106-127,
k1Import.py:186-212): a fresh dictionary stamped with the current time. -/
def new_flubase_file (now : Int) (destdir : String) : StoredState :=
  ⟨none, none, false, now, some destdir⟩

/-- `FluCard.get_flu_base_data` (fluImport.py:68-104).  Inputs: what is on
disk, the `--clean` flag, the `-d` argument (the literal string `"None"`
when not given, fluImport.py:300-306), and the current time.  When the file
is absent or `--clean` is given, a missing `-d` raises and otherwise a
fresh file is created; when a file is read, the stored `destDir` is looked
up only if `-d` was not given, and then the two-day staleness check
replaces a stale state by a fresh one. -/
def get_flu_base_data (stored : StoredFile) (clean : Bool) (destdirArg : String)
    (now : Int) : LoadResult :=
  if stored = .absent ∨ clean = true then
    if destdirArg = "None" then .err .noDestDirArg
    else .ok (new_flubase_file now destdirArg) destdirArg
  else
    match stored with
    | .absent => .err .noDestDirArg
    | .corrupt => .err .jsonError
    | .valid d =>
      match (if destdirArg = "None" then d.destDir else some destdirArg) with
      | none => .err .destDirKeyError
      | some destdir =>
        if now - d.lastSeconds ≥ 172800 then .ok (new_flubase_file now destdir) destdir
        else .ok d destdir

/-- `PentaxWiFi.get_k1_base_data` (k1Import.py:143-184): the same decision
structure as `get_flu_base_data`; the missing-`destDir` failure is an
explicit `AttributeError` instead of a `KeyError`. -/
def get_k1_base_data (stored : StoredFile) (clean : Bool) (destdirArg : String)
    (now : Int) : LoadResult :=
  if stored = .absent ∨ clean = true then
    if destdirArg = "None" then .err .noDestDirArg
    else .ok (new_flubase_file now destdirArg) destdirArg
  else
    match stored with
    | .absent => .err .noDestDirArg
    | .corrupt => .err .jsonError
    | .valid d =>
      match (if destdirArg = "None" then d.destDir else some destdirArg) with
      | none => .err .destDirKeyError
      | some destdir =>
        if now - d.lastSeconds ≥ 172800 then .ok (new_flubase_file now destdir) destdir
        else .ok d destdir

/-- The destination-directory resolution step of the load
(fluImport.py:91-92, k1Import.py:167-173): the `-d` argument if given,
otherwise the stored `destDir` key. -/
def destSel (d : StoredState) (destdirArg : String) : Option String :=
  if destdirArg = "None" then d.destDir else some destdirArg

/-! ### Arithmetic characterization of eligibility -/

/-- The two sequential `if` statements of the eligibility computation are
equivalent to one disjunction. -/
lemma downloadFlag_iff (s : FluBase) (n : Int) :
    downloadFlag s n = true ↔
      (s.rollover = false ∧ n > sentinel s.lastFile ∧ n > sentinel s.firstFile) ∨
      (s.rollover = true ∧ ((sentinel s.lastFile < n ∧ n < sentinel s.firstFile) ∨
        sentinel s.lastFile = 9999)) := by
  simp only [downloadFlag]
  split_ifs with h1 h2 <;> simp only [true_iff, false_iff] <;> tauto

/-- An eligible item equal to the `firstFile` watermark forces the rollover
flag and a `lastFile` pinned at 9999. -/
lemma downloadFlag_at_firstFile (s : FluBase) (n : Int) (hn : n = sentinel s.firstFile) :
    (downloadFlag s n = true ↔ (s.rollover = true ∧ sentinel s.lastFile = 9999)) := by
  rw [downloadFlag_iff]
  subst hn
  cases hro : s.rollover <;> simp [hro]

/-- A successful download of an item numbered `m ≠ 9999` keeps every
already-ineligible number ineligible.  This is the inductive heart of the
idempotence and retry analyses; the hypothesis that the state is not
"pinned" (`rollover` set with `lastFile = 9999`) is essential — a pinned
state makes every number eligible. -/
lemma downloadFlag_preserve_step (s : FluBase) (m n : Int)
    (hpin : s.rollover = true → sentinel s.lastFile ≠ 9999)
    (hm : downloadFlag s m = true) (hm9 : m ≠ 9999)
    (hn : downloadFlag s n = false) :
    downloadFlag (applySuccess s m) n = false := by
  rw [downloadFlag_iff] at hm
  have hn' : ¬ ((s.rollover = false ∧ n > sentinel s.lastFile ∧ n > sentinel s.firstFile) ∨
      (s.rollover = true ∧ ((sentinel s.lastFile < n ∧ n < sentinel s.firstFile) ∨
        sentinel s.lastFile = 9999))) := by
    rw [← downloadFlag_iff, hn]; simp
  rw [← Bool.not_eq_true, downloadFlag_iff]
  cases hro : s.rollover <;>
    rcases hf : s.firstFile with _ | v <;>
    rcases hl : s.lastFile with _ | w <;>
    simp [applySuccess, sentinel, hro, hf, hl, hm9] at hm hn' hpin ⊢ <;>
    omega

/-- After a successful download of an item numbered `m ≠ 9999`, the number
`m` itself is no longer eligible. -/
lemma downloadFlag_self_after (s : FluBase) (m : Int) (hm9 : m ≠ 9999) :
    downloadFlag (applySuccess s m) m = false := by
  rw [← Bool.not_eq_true, downloadFlag_iff]
  cases hro : s.rollover <;>
    rcases hf : s.firstFile with _ | v <;>
    simp [applySuccess, sentinel, hro, hf, hm9]

/-- A successful download of an item numbered `m ≠ 9999` never produces a
pinned state. -/
lemma pin_inv_step (s : FluBase) (m : Int) (hm9 : m ≠ 9999) :
    (applySuccess s m).rollover = true → sentinel (applySuccess s m).lastFile ≠ 9999 := by
  intro _
  simp only [applySuccess, sentinel]
  exact hm9


/-- If a number is ineligible, it stays ineligible after a whole import
pass, provided the pass starts unpinned and downloads no item numbered
9999. -/
lemma downloadFlag_preserve_run (halt : Bool) (f : String → Bool) :
    ∀ (l : List String) (s : FluBase) (n : Int),
      (s.rollover = true → sentinel s.lastFile ≠ 9999) →
      (∀ t ∈ (getNewPhotosAux halt f s l).trace, t.lastFile ≠ some 9999) →
      downloadFlag s n = false →
      downloadFlag (getNewPhotosAux halt f s l).state n = false := by
  intro l
  induction l with
  | nil =>
    intro s n _ _ hn
    simpa [getNewPhotosAux] using hn
  | cons u rest ih =>
    intro s n hpin htr hn
    rcases hext : extractSequence (basename u) with _ | m
    · simpa [getNewPhotosAux, hext] using hn
    · by_cases hd : downloadFlag s m = true
      · by_cases hg : halt = true ∧ m = sentinel s.firstFile
        · obtain ⟨hg1, hg2⟩ := hg
          subst hg1
          subst hg2
          simpa [getNewPhotosAux, hext, hd] using hn
        · by_cases hfu : f u = true
          · have hm9 : m ≠ 9999 := by
              have hmem : (applySuccess s m) ∈ (getNewPhotosAux halt f s (u :: rest)).trace := by
                simp [getNewPhotosAux, hext, hd, hg, hfu]
              have h2 := htr _ hmem
              simpa [applySuccess] using h2
            have htr' : ∀ t ∈ (getNewPhotosAux halt f (applySuccess s m) rest).trace,
                t.lastFile ≠ some 9999 := by
              intro t ht
              apply htr
              simp [getNewPhotosAux, hext, hd, hg, hfu]
              exact Or.inr ht
            have hrec := ih (applySuccess s m) n (pin_inv_step s m hm9) htr'
              (downloadFlag_preserve_step s m n hpin hd hm9 hn)
            simpa [getNewPhotosAux, hext, hd, hg, hfu] using hrec
          · simpa [getNewPhotosAux, hext, hd, hg, hfu] using hn
      · have heq : getNewPhotosAux halt f s (u :: rest) = getNewPhotosAux halt f s rest := by
          simp [getNewPhotosAux, hext, hd]
        rw [heq] at htr ⊢
        exact ih s n hpin htr hn


/-- Re-running an import pass on the same listing from the state it
produced behaves exactly like running it on the unprocessed remainder of
the listing: every item the first pass consumed is skipped.  Requires the
starting state to be unpinned and the first pass to download no item
numbered 9999. -/
lemma rerun_pending (halt : Bool) (f : String → Bool) :
    ∀ (l : List String) (s : FluBase),
      (s.rollover = true → sentinel s.lastFile ≠ 9999) →
      (∀ t ∈ (getNewPhotosAux halt f s l).trace, t.lastFile ≠ some 9999) →
      ∀ (f2 : String → Bool),
        getNewPhotosAux halt f2 (getNewPhotosAux halt f s l).state l =
        getNewPhotosAux halt f2 (getNewPhotosAux halt f s l).state
          (getNewPhotosAux halt f s l).pending := by
  intro l
  induction l with
  | nil =>
    intro s _ _ f2
    rfl
  | cons u rest ih =>
    intro s hpin htr f2
    rcases hext : extractSequence (basename u) with _ | m
    · have hr : getNewPhotosAux halt f s (u :: rest) = ⟨s, [], .malformedName, [], u :: rest⟩ := by
        simp [getNewPhotosAux, hext]
      rw [hr]
    · by_cases hd : downloadFlag s m = true
      · by_cases hg : halt = true ∧ m = sentinel s.firstFile
        · obtain ⟨hg1, hg2⟩ := hg
          subst hg1
          subst hg2
          have hr : getNewPhotosAux true f s (u :: rest) = ⟨s, [], .cycleComplete, [], u :: rest⟩ := by
            simp [getNewPhotosAux, hext, hd]
          rw [hr]
        · by_cases hfu : f u = true
          · have hr : getNewPhotosAux halt f s (u :: rest) =
                ⟨(getNewPhotosAux halt f (applySuccess s m) rest).state,
                  u :: (getNewPhotosAux halt f (applySuccess s m) rest).attempts,
                  (getNewPhotosAux halt f (applySuccess s m) rest).stop,
                  applySuccess s m :: (getNewPhotosAux halt f (applySuccess s m) rest).trace,
                  (getNewPhotosAux halt f (applySuccess s m) rest).pending⟩ := by
              simp [getNewPhotosAux, hext, hd, hg, hfu]
            rw [hr] at htr ⊢
            have hm9 : m ≠ 9999 := by
              have h2 := htr (applySuccess s m) (by simp)
              simpa [applySuccess] using h2
            have htr' : ∀ t ∈ (getNewPhotosAux halt f (applySuccess s m) rest).trace,
                t.lastFile ≠ some 9999 := by
              intro t ht
              exact htr t (by simp [ht])
            have hskip : downloadFlag (getNewPhotosAux halt f (applySuccess s m) rest).state m = false :=
              downloadFlag_preserve_run halt f rest (applySuccess s m) m (pin_inv_step s m hm9)
                htr' (downloadFlag_self_after s m hm9)
            have hstep : getNewPhotosAux halt f2 (getNewPhotosAux halt f (applySuccess s m) rest).state (u :: rest) =
                getNewPhotosAux halt f2 (getNewPhotosAux halt f (applySuccess s m) rest).state rest := by
              simp [getNewPhotosAux, hext, hskip]
            calc getNewPhotosAux halt f2 (getNewPhotosAux halt f (applySuccess s m) rest).state (u :: rest)
                = getNewPhotosAux halt f2 (getNewPhotosAux halt f (applySuccess s m) rest).state rest := hstep
              _ = getNewPhotosAux halt f2 (getNewPhotosAux halt f (applySuccess s m) rest).state
                    (getNewPhotosAux halt f (applySuccess s m) rest).pending :=
                  ih (applySuccess s m) (pin_inv_step s m hm9) htr' f2
          · have hr : getNewPhotosAux halt f s (u :: rest) = ⟨s, [u], .fetchFailed, [], u :: rest⟩ := by
              simp [getNewPhotosAux, hext, hd, hg, hfu]
            rw [hr]
      · have hr : getNewPhotosAux halt f s (u :: rest) = getNewPhotosAux halt f s rest := by
          simp [getNewPhotosAux, hext, hd]
        rw [hr] at htr ⊢
        have hdn : downloadFlag s m = false := by
          simpa using hd
        have hskip : downloadFlag (getNewPhotosAux halt f s rest).state m = false :=
          downloadFlag_preserve_run halt f rest s m hpin htr hdn
        have hstep : getNewPhotosAux halt f2 (getNewPhotosAux halt f s rest).state (u :: rest) =
            getNewPhotosAux halt f2 (getNewPhotosAux halt f s rest).state rest := by
          simp [getNewPhotosAux, hext, hskip]
        rw [hstep]
        exact ih s hpin htr f2


/-- A pass that exhausts its listing leaves nothing unprocessed. -/
lemma run_finished_pending (halt : Bool) (f : String → Bool) :
    ∀ (l : List String) (s : FluBase),
      (getNewPhotosAux halt f s l).stop = .finished →
      (getNewPhotosAux halt f s l).pending = [] := by
  intro l
  induction l with
  | nil => intro s _; rfl
  | cons u rest ih =>
    intro s hstop
    rcases hext : extractSequence (basename u) with _ | m
    · simp [getNewPhotosAux, hext] at hstop
    · by_cases hd : downloadFlag s m = true
      · by_cases hg : halt = true ∧ m = sentinel s.firstFile
        · obtain ⟨hg1, hg2⟩ := hg
          subst hg1; subst hg2
          simp [getNewPhotosAux, hext, hd] at hstop
        · by_cases hfu : f u = true
          · have hr : getNewPhotosAux halt f s (u :: rest) =
                ⟨(getNewPhotosAux halt f (applySuccess s m) rest).state,
                  u :: (getNewPhotosAux halt f (applySuccess s m) rest).attempts,
                  (getNewPhotosAux halt f (applySuccess s m) rest).stop,
                  applySuccess s m :: (getNewPhotosAux halt f (applySuccess s m) rest).trace,
                  (getNewPhotosAux halt f (applySuccess s m) rest).pending⟩ := by
              simp [getNewPhotosAux, hext, hd, hg, hfu]
            rw [hr] at hstop ⊢
            exact ih (applySuccess s m) hstop
          · simp [getNewPhotosAux, hext, hd, hg, hfu] at hstop
      · have hr : getNewPhotosAux halt f s (u :: rest) = getNewPhotosAux halt f s rest := by
          simp [getNewPhotosAux, hext, hd]
        rw [hr] at hstop ⊢
        exact ih s hstop

/-- A pass that stopped with `cycleComplete` did so in the fluImport
variant, at an unprocessed item that is eligible under the final state and
whose number equals the `firstFile` watermark. -/
lemma run_cycle_pending (halt : Bool) (f : String → Bool) :
    ∀ (l : List String) (s : FluBase),
      (getNewPhotosAux halt f s l).stop = .cycleComplete →
      halt = true ∧ ∃ u rest2 n, (getNewPhotosAux halt f s l).pending = u :: rest2 ∧
        extractSequence (basename u) = some n ∧
        downloadFlag (getNewPhotosAux halt f s l).state n = true ∧
        n = sentinel (getNewPhotosAux halt f s l).state.firstFile := by
  intro l
  induction l with
  | nil => intro s hstop; simp [getNewPhotosAux] at hstop
  | cons u rest ih =>
    intro s hstop
    rcases hext : extractSequence (basename u) with _ | m
    · simp [getNewPhotosAux, hext] at hstop
    · by_cases hd : downloadFlag s m = true
      · by_cases hg : halt = true ∧ m = sentinel s.firstFile
        · obtain ⟨hg1, hg2⟩ := hg
          subst hg1; subst hg2
          have hr : getNewPhotosAux true f s (u :: rest) = ⟨s, [], .cycleComplete, [], u :: rest⟩ := by
            simp [getNewPhotosAux, hext, hd]
          rw [hr]
          exact ⟨rfl, u, rest, sentinel s.firstFile, rfl, hext, hd, rfl⟩
        · by_cases hfu : f u = true
          · have hr : getNewPhotosAux halt f s (u :: rest) =
                ⟨(getNewPhotosAux halt f (applySuccess s m) rest).state,
                  u :: (getNewPhotosAux halt f (applySuccess s m) rest).attempts,
                  (getNewPhotosAux halt f (applySuccess s m) rest).stop,
                  applySuccess s m :: (getNewPhotosAux halt f (applySuccess s m) rest).trace,
                  (getNewPhotosAux halt f (applySuccess s m) rest).pending⟩ := by
              simp [getNewPhotosAux, hext, hd, hg, hfu]
            rw [hr] at hstop ⊢
            exact ih (applySuccess s m) hstop
          · simp [getNewPhotosAux, hext, hd, hg, hfu] at hstop
      · have hr : getNewPhotosAux halt f s (u :: rest) = getNewPhotosAux halt f s rest := by
          simp [getNewPhotosAux, hext, hd]
        rw [hr] at hstop ⊢
        exact ih s hstop

/-- A pass that stopped on a malformed name did so at the first unprocessed
item, whose sequence extraction fails. -/
lemma run_malformed_pending (halt : Bool) (f : String → Bool) :
    ∀ (l : List String) (s : FluBase),
      (getNewPhotosAux halt f s l).stop = .malformedName →
      ∃ u rest2, (getNewPhotosAux halt f s l).pending = u :: rest2 ∧
        extractSequence (basename u) = none := by
  intro l
  induction l with
  | nil => intro s hstop; simp [getNewPhotosAux] at hstop
  | cons u rest ih =>
    intro s hstop
    rcases hext : extractSequence (basename u) with _ | m
    · have hr : getNewPhotosAux halt f s (u :: rest) = ⟨s, [], .malformedName, [], u :: rest⟩ := by
        simp [getNewPhotosAux, hext]
      rw [hr]
      exact ⟨u, rest, rfl, hext⟩
    · by_cases hd : downloadFlag s m = true
      · by_cases hg : halt = true ∧ m = sentinel s.firstFile
        · obtain ⟨hg1, hg2⟩ := hg
          subst hg1; subst hg2
          simp [getNewPhotosAux, hext, hd] at hstop
        · by_cases hfu : f u = true
          · have hr : getNewPhotosAux halt f s (u :: rest) =
                ⟨(getNewPhotosAux halt f (applySuccess s m) rest).state,
                  u :: (getNewPhotosAux halt f (applySuccess s m) rest).attempts,
                  (getNewPhotosAux halt f (applySuccess s m) rest).stop,
                  applySuccess s m :: (getNewPhotosAux halt f (applySuccess s m) rest).trace,
                  (getNewPhotosAux halt f (applySuccess s m) rest).pending⟩ := by
              simp [getNewPhotosAux, hext, hd, hg, hfu]
            rw [hr] at hstop ⊢
            exact ih (applySuccess s m) hstop
          · simp [getNewPhotosAux, hext, hd, hg, hfu] at hstop
      · have hr : getNewPhotosAux halt f s (u :: rest) = getNewPhotosAux halt f s rest := by
          simp [getNewPhotosAux, hext, hd]
        rw [hr] at hstop ⊢
        exact ih s hstop

/-- A pass that stopped on a failed download attempted a sequence of
successful downloads followed by the one failing item; that item heads the
unprocessed remainder and is still eligible (and not a cycle closure) under
the final state. -/
lemma run_failed_char (halt : Bool) (f : String → Bool) :
    ∀ (l : List String) (s : FluBase),
      (getNewPhotosAux halt f s l).stop = .fetchFailed →
      ∃ us u rest2 n, (getNewPhotosAux halt f s l).attempts = us ++ [u] ∧ f u = false ∧
        (∀ v ∈ us, f v = true) ∧ (getNewPhotosAux halt f s l).pending = u :: rest2 ∧
        extractSequence (basename u) = some n ∧
        downloadFlag (getNewPhotosAux halt f s l).state n = true ∧
        ¬(halt = true ∧ n = sentinel (getNewPhotosAux halt f s l).state.firstFile) := by
  intro l
  induction l with
  | nil => intro s hstop; simp [getNewPhotosAux] at hstop
  | cons u rest ih =>
    intro s hstop
    rcases hext : extractSequence (basename u) with _ | m
    · simp [getNewPhotosAux, hext] at hstop
    · by_cases hd : downloadFlag s m = true
      · by_cases hg : halt = true ∧ m = sentinel s.firstFile
        · obtain ⟨hg1, hg2⟩ := hg
          subst hg1; subst hg2
          simp [getNewPhotosAux, hext, hd] at hstop
        · by_cases hfu : f u = true
          · have hr : getNewPhotosAux halt f s (u :: rest) =
                ⟨(getNewPhotosAux halt f (applySuccess s m) rest).state,
                  u :: (getNewPhotosAux halt f (applySuccess s m) rest).attempts,
                  (getNewPhotosAux halt f (applySuccess s m) rest).stop,
                  applySuccess s m :: (getNewPhotosAux halt f (applySuccess s m) rest).trace,
                  (getNewPhotosAux halt f (applySuccess s m) rest).pending⟩ := by
              simp [getNewPhotosAux, hext, hd, hg, hfu]
            rw [hr] at hstop ⊢
            obtain ⟨us, u2, rest2, n2, hatt, hfu2, hus, hpend, hext2, hd2, hg2⟩ :=
              ih (applySuccess s m) hstop
            refine ⟨u :: us, u2, rest2, n2, ?_, hfu2, ?_, hpend, hext2, hd2, hg2⟩
            · simp [hatt]
            · intro v hv
              rcases List.mem_cons.mp hv with h | h
              · subst h; exact hfu
              · exact hus v h
          · have hr : getNewPhotosAux halt f s (u :: rest) = ⟨s, [u], .fetchFailed, [], u :: rest⟩ := by
              simp [getNewPhotosAux, hext, hd, hg, hfu]
            rw [hr]
            refine ⟨[], u, rest, m, rfl, by simpa using hfu, by simp, rfl, hext, hd, hg⟩
      · have hr : getNewPhotosAux halt f s (u :: rest) = getNewPhotosAux halt f s rest := by
          simp [getNewPhotosAux, hext, hd]
        rw [hr] at hstop ⊢
        exact ih s hstop

/-- The final state of a pass is the last state persisted by
`update_flu_base_data` (or the initial state if nothing was downloaded):
the failed and unprocessed items leave no mark on the state. -/
lemma run_state_trace (halt : Bool) (f : String → Bool) :
    ∀ (l : List String) (s : FluBase),
      (s :: (getNewPhotosAux halt f s l).trace).getLast? = some (getNewPhotosAux halt f s l).state := by
  intro l
  induction l with
  | nil => intro s; rfl
  | cons u rest ih =>
    intro s
    rcases hext : extractSequence (basename u) with _ | m
    · simp [getNewPhotosAux, hext]
    · by_cases hd : downloadFlag s m = true
      · by_cases hg : halt = true ∧ m = sentinel s.firstFile
        · obtain ⟨hg1, hg2⟩ := hg
          subst hg1; subst hg2
          simp [getNewPhotosAux, hext, hd]
        · by_cases hfu : f u = true
          · have hr : getNewPhotosAux halt f s (u :: rest) =
                ⟨(getNewPhotosAux halt f (applySuccess s m) rest).state,
                  u :: (getNewPhotosAux halt f (applySuccess s m) rest).attempts,
                  (getNewPhotosAux halt f (applySuccess s m) rest).stop,
                  applySuccess s m :: (getNewPhotosAux halt f (applySuccess s m) rest).trace,
                  (getNewPhotosAux halt f (applySuccess s m) rest).pending⟩ := by
              simp [getNewPhotosAux, hext, hd, hg, hfu]
            rw [hr]
            have h2 := ih (applySuccess s m)
            simpa [List.getLast?_cons_cons] using h2
          · simp [getNewPhotosAux, hext, hd, hg, hfu]
      · have hr : getNewPhotosAux halt f s (u :: rest) = getNewPhotosAux halt f s rest := by
          simp [getNewPhotosAux, hext, hd]
        rw [hr]
        exact ih s


/-- The rollover flag after a successful download. -/
lemma applySuccess_rollover (s : FluBase) (n : Int) :
    ((applySuccess s n).rollover = true ↔ (s.rollover = true ∨ n = 9999)) := by
  by_cases h : n = 9999 <;> simp [applySuccess, h]

/-- If a pass ends with the rollover flag set, either it was already set or
some persisted state of the pass records `lastFile = 9999`. -/
lemma run_rollover_source (halt : Bool) (f : String → Bool) :
    ∀ (l : List String) (s : FluBase),
      (getNewPhotosAux halt f s l).state.rollover = true →
      s.rollover = true ∨ ∃ t ∈ (getNewPhotosAux halt f s l).trace, t.lastFile = some 9999 := by
  intro l
  induction l with
  | nil => intro s h; exact Or.inl h
  | cons u rest ih =>
    intro s h
    rcases hext : extractSequence (basename u) with _ | m
    · rw [show getNewPhotosAux halt f s (u :: rest) = ⟨s, [], .malformedName, [], u :: rest⟩ from by
        simp [getNewPhotosAux, hext]] at h
      exact Or.inl h
    · by_cases hd : downloadFlag s m = true
      · by_cases hg : halt = true ∧ m = sentinel s.firstFile
        · obtain ⟨hg1, hg2⟩ := hg
          subst hg1; subst hg2
          rw [show getNewPhotosAux true f s (u :: rest) = ⟨s, [], .cycleComplete, [], u :: rest⟩ from by
            simp [getNewPhotosAux, hext, hd]] at h ⊢
          exact Or.inl h
        · by_cases hfu : f u = true
          · have hr : getNewPhotosAux halt f s (u :: rest) =
                ⟨(getNewPhotosAux halt f (applySuccess s m) rest).state,
                  u :: (getNewPhotosAux halt f (applySuccess s m) rest).attempts,
                  (getNewPhotosAux halt f (applySuccess s m) rest).stop,
                  applySuccess s m :: (getNewPhotosAux halt f (applySuccess s m) rest).trace,
                  (getNewPhotosAux halt f (applySuccess s m) rest).pending⟩ := by
              simp [getNewPhotosAux, hext, hd, hg, hfu]
            rw [hr] at h ⊢
            rcases ih (applySuccess s m) h with h2 | ⟨t, ht, ht9⟩
            · rcases (applySuccess_rollover s m).mp h2 with h3 | h3
              · exact Or.inl h3
              · subst h3
                exact Or.inr ⟨applySuccess s 9999, by simp, by simp [applySuccess]⟩
            · exact Or.inr ⟨t, by simp [ht], ht9⟩
          · rw [show getNewPhotosAux halt f s (u :: rest) = ⟨s, [u], .fetchFailed, [], u :: rest⟩ from by
              simp [getNewPhotosAux, hext, hd, hg, hfu]] at h ⊢
            exact Or.inl h
      · rw [show getNewPhotosAux halt f s (u :: rest) = getNewPhotosAux halt f s rest from by
          simp [getNewPhotosAux, hext, hd]] at h ⊢
        exact ih s h

/-- The same across any sequence of import passes. -/
lemma runPasses_rollover (halt : Bool) :
    ∀ (ps : List ((String → Bool) × List String)) (s : FluBase),
      (runPasses halt s ps).1.rollover = true →
      s.rollover = true ∨ ∃ t ∈ (runPasses halt s ps).2, t.lastFile = some 9999 := by
  intro ps
  induction ps with
  | nil => intro s h; exact Or.inl h
  | cons p ps ih =>
    intro s h
    obtain ⟨f, l⟩ := p
    have hr : runPasses halt s ((f, l) :: ps) =
        ((runPasses halt (getNewPhotosAux halt f s l).state ps).1,
          (getNewPhotosAux halt f s l).trace ++ (runPasses halt (getNewPhotosAux halt f s l).state ps).2) := by
      simp [runPasses]
    rw [hr] at h ⊢
    rcases ih (getNewPhotosAux halt f s l).state h with h2 | ⟨t, ht, ht9⟩
    · rcases run_rollover_source halt f l s h2 with h3 | ⟨t, ht, ht9⟩
      · exact Or.inl h3
      · exact Or.inr ⟨t, by simp [ht], ht9⟩
    · exact Or.inr ⟨t, by simp [ht], ht9⟩


/-! ### Facts about the sequence extraction -/

/-- A decimal digit is not Python whitespace. -/
lemma isPyWs_eq_false {c : Char} (h : c.isDigit = true) : isPyWs c = false := by
  rcases hw : isPyWs c
  · rfl
  · exfalso
    have h2 : c = ' ' ∨ c = '\t' ∨ c = '\n' ∨ c = '\r' ∨ c = Char.ofNat 11 ∨ c = Char.ofNat 12 := by
      simpa [isPyWs, or_assoc] using hw
    rcases h2 with h1 | h1 | h1 | h1 | h1 | h1 <;> subst h1 <;> exact absurd h (by decide)

/-- `dropWhile` is the identity when the predicate holds nowhere. -/
lemma dropWhile_eq_self_of_false {p : Char → Bool} :
    ∀ l : List Char, (∀ c ∈ l, p c = false) → l.dropWhile p = l := by
  intro l h
  cases l with
  | nil => rfl
  | cons c cs => simp [List.dropWhile_cons, h c (by simp)]

/-- Stripping whitespace from a whitespace-free string is the identity. -/
lemma stripWs_eq_self (l : List Char) (h : ∀ c ∈ l, isPyWs c = false) : stripWs l = l := by
  unfold stripWs
  rw [dropWhile_eq_self_of_false l h,
    dropWhile_eq_self_of_false l.reverse (fun c hc => h c (List.mem_reverse.mp hc)),
    List.reverse_reverse]

/-- An all-digit run is accepted by the digit-run recognizer. -/
lemma pyDigitsOk_false_of_digits :
    ∀ l : List Char, (∀ c ∈ l, c.isDigit = true) → pyDigitsOk false l = true := by
  intro l
  induction l with
  | nil => intro _; rfl
  | cons c cs ih =>
    intro h
    have hc : c.isDigit = true := h c (by simp)
    have hne : ¬(c = '_') := by intro he; subst he; exact absurd hc (by decide)
    simp only [pyDigitsOk, if_neg hne, hc, Bool.true_and]
    exact ih (fun e he => h e (by simp [he]))

/-- A nonempty all-digit run is accepted from the initial state. -/
lemma pyDigitsOk_true_of_digits (c : Char) (cs : List Char)
    (h : ∀ e ∈ c :: cs, e.isDigit = true) : pyDigitsOk true (c :: cs) = true := by
  have hc : c.isDigit = true := h c (by simp)
  have hne : ¬(c = '_') := by intro he; subst he; exact absurd hc (by decide)
  simp only [pyDigitsOk, if_neg hne, hc, Bool.true_and]
  exact pyDigitsOk_false_of_digits cs (fun e he => h e (by simp [he]))

/-- `int` on a nonempty all-digit string returns its base-10 value. -/
lemma pythonInt_digits (c : Char) (cs : List Char) (h : ∀ e ∈ c :: cs, e.isDigit = true) :
    pythonInt (c :: cs) = some (digitsVal (c :: cs)) := by
  have hst : stripWs (c :: cs) = c :: cs :=
    stripWs_eq_self _ (fun e he => isPyWs_eq_false (h e he))
  have hc : c.isDigit = true := h c (by simp)
  have hplus : ¬(c = '+') := by intro he; subst he; exact absurd hc (by decide)
  have hminus : ¬(c = '-') := by intro he; subst he; exact absurd hc (by decide)
  unfold pythonInt
  rw [hst]
  simp [hplus, hminus, pyDigitsOk_true_of_digits c cs h]

/-- When characters 5-8 of the basename are four decimal digits, the
extraction returns the number they denote, whatever comes after them. -/
lemma extractSequence_digits (pre d post : List Char) (h4 : pre.length = 4)
    (hd4 : d.length = 4) (hdig : ∀ c ∈ d, c.isDigit = true) :
    extractSequence (String.mk (pre ++ d ++ post)) = some (digitsVal d) := by
  unfold extractSequence
  have h1 : (String.mk (pre ++ d ++ post)).toList = pre ++ d ++ post := rfl
  rw [h1]
  have hdrop : (pre ++ d ++ post).drop 4 = d ++ post := by
    rw [List.append_assoc, ← h4]
    exact List.drop_left pre (d ++ post)
  have htake : (d ++ post).take 4 = d := by
    rw [← hd4]
    exact List.take_left d post
  rw [hdrop, htake]
  obtain ⟨c, cs, rfl⟩ : ∃ c cs, d = c :: cs := by
    cases d with
    | nil => simp at hd4
    | cons c cs => exact ⟨c, cs, rfl⟩
  exact pythonInt_digits c cs hdig

/-! ### The claims -/

/-- C2: Eligibility rule.  For every state and every extracted sequence
number `n` (with `last`/`first` the stored watermarks or the sentinel -1),
the engine marks the file for download exactly when
(rollover is false and `n > last` and `n > first`) or
(rollover is true and ((`last < n` and `n < first`) or `last = 9999`)).
Both sources compute this identically (fluImport.py:157-166,
k1Import.py:356-365). -/
theorem spec_C2_eligibility (s : FluBase) (n : Int) :
    downloadFlag s n = true ↔
      (s.rollover = false ∧ n > sentinel s.lastFile ∧ n > sentinel s.firstFile) ∨
      (s.rollover = true ∧ ((sentinel s.lastFile < n ∧ n < sentinel s.firstFile) ∨
        sentinel s.lastFile = 9999)) :=
  downloadFlag_iff s n

/-- C10: an eligible file whose number equals `firstSeen` exists exactly
when the state is pinned (`rollover` set and `lastSeen = 9999`); in
particular with `rollover = true` and `lastSeen ≠ 9999` a file numbered
exactly `firstSeen` is not eligible, is skipped outright by the pass, and
produces no `CycleComplete` signal. -/
theorem spec_C10_closure (s : FluBase) (n : Int) (hn : n = sentinel s.firstFile) :
    (downloadFlag s n = true ↔ (s.rollover = true ∧ sentinel s.lastFile = 9999)) ∧
    (s.rollover = true → sentinel s.lastFile ≠ 9999 →
      ∀ (halt : Bool) (fetch : String → Bool) (url : String) (rest : List String),
        extractSequence (basename url) = some n →
        getNewPhotosAux halt fetch s (url :: rest) = getNewPhotosAux halt fetch s rest) := by
  constructor
  · exact downloadFlag_at_firstFile s n hn
  · intro hro h9 halt fetch url rest hext
    have hflag : downloadFlag s n = false := by
      rw [← Bool.not_eq_true, downloadFlag_at_firstFile s n hn]
      rintro ⟨_, h2⟩
      exact h9 h2
    simp [getNewPhotosAux, hext, hflag]

/-- C10 witness: in the state `(firstSeen 50, lastSeen 60, rollover)` the
file `ABCD0050.JPG` is not eligible and is skipped. -/
theorem spec_C10_witness :
    (downloadFlag ⟨some 50, some 60, true⟩ 50 = true ↔
      ((⟨some 50, some 60, true⟩ : FluBase).rollover = true ∧
        sentinel (⟨some 50, some 60, true⟩ : FluBase).lastFile = 9999)) ∧
    getNewPhotosAux true (fun _ => true) ⟨some 50, some 60, true⟩ ["ABCD0050.JPG"] =
      getNewPhotosAux true (fun _ => true) ⟨some 50, some 60, true⟩ [] :=
  ⟨(spec_C10_closure ⟨some 50, some 60, true⟩ 50 rfl).1,
   (spec_C10_closure ⟨some 50, some 60, true⟩ 50 rfl).2 rfl (by decide) true (fun _ => true)
     "ABCD0050.JPG" [] (by decide)⟩

/-- C9 (amended): extraction returns the number denoted by characters 5-8
of the basename whenever those four characters are all decimal digits (no
assumption is made about what follows them); so a `MalformedNameError` can
only arise when they are not all digits — but not every such basename
fails: Python's `int` also accepts, for example, a sign before three
digits, so `"ABCD+123.jpg"` extracts as `123` instead of failing. -/
theorem spec_C9_amended :
    (∀ (pre d post : List Char), pre.length = 4 → d.length = 4 →
      (∀ c ∈ d, c.isDigit = true) →
      extractSequence (String.mk (pre ++ d ++ post)) = some (digitsVal d)) ∧
    extractSequence "ABCD+123.jpg" = some 123 :=
  ⟨extractSequence_digits, by decide⟩

/-- C9 witness: `"ABCD1234.jpg"` extracts as the number denoted by
`"1234"`. -/
theorem spec_C9_witness :
    extractSequence (String.mk (['A','B','C','D'] ++ ['1','2','3','4'] ++ ['.','j','p','g'])) =
      some (digitsVal ['1','2','3','4']) :=
  spec_C9_amended.1 ['A','B','C','D'] ['1','2','3','4'] ['.','j','p','g'] rfl rfl (by decide)

/-- C9 counterexample: characters 5-8 of `"ABCD+123.jpg"` are not all
decimal digits, yet extraction succeeds (returning 123) instead of failing
with `MalformedNameError` — refuting "fails exactly when characters 5-8 are
not decimal digits". -/
theorem spec_C9_counterexample :
    (("ABCD+123.jpg".toList.drop 4).take 4).all Char.isDigit = false ∧
    extractSequence "ABCD+123.jpg" = some 123 ∧ extractSequence "ABCD+123.jpg" ≠ none := by
  refine ⟨by decide, by decide, by decide⟩

/-- C1 (amended): running the import pass again with the same listing and
the state produced by the first run performs zero additional fetches,
provided the starting state is not pinned (`rollover` set with
`lastSeen = 9999`), the first run downloads no file numbered 9999, and the
first run does not end in a download failure.  Holds for both the FluCard
(`halt = true`) and PentaxWiFi (`halt = false`) variants.  Without the
9999 carve-outs the property is false: see the counterexample. -/
theorem spec_C1_amended (halt : Bool) (f : String → Bool) (s : FluBase) (l : List String)
    (hpin : s.rollover = true → sentinel s.lastFile ≠ 9999)
    (h9999 : ∀ t ∈ (getNewPhotosAux halt f s l).trace, t.lastFile ≠ some 9999)
    (hstop : (getNewPhotosAux halt f s l).stop ≠ RunStop.fetchFailed) :
    (getNewPhotosAux halt f (getNewPhotosAux halt f s l).state l).attempts = [] := by
  rw [rerun_pending halt f l s hpin h9999 f]
  rcases hs : (getNewPhotosAux halt f s l).stop with _ | _ | _ | _
  · rw [run_finished_pending halt f l s hs]
    rfl
  · obtain ⟨hhalt, u, rest2, n, hpend, hext, hflag, hfirst⟩ := run_cycle_pending halt f l s hs
    subst hhalt
    subst hfirst
    rw [hpend]
    simp [getNewPhotosAux, hext, hflag]
  · exact absurd hs hstop
  · obtain ⟨u, rest2, hpend, hext⟩ := run_malformed_pending halt f l s hs
    rw [hpend]
    simp [getNewPhotosAux, hext]

/-- C1 witness: after importing `[101, 102]` from a fresh state, a second
pass over the same listing fetches nothing. -/
theorem spec_C1_witness :
    (getNewPhotosAux true (fun _ => true)
      (getNewPhotosAux true (fun _ => true) freshEngineState
        ["ABCD0101.JPG", "ABCD0102.JPG"]).state
      ["ABCD0101.JPG", "ABCD0102.JPG"]).attempts = [] :=
  spec_C1_amended true (fun _ => true) freshEngineState ["ABCD0101.JPG", "ABCD0102.JPG"]
    (by decide) (by decide) (by decide)

/-- C1 counterexample: the state `(firstSeen 50, lastSeen 9999, rollover)`
is reachable from a fresh state by importing `[50, 9999]`; from it, a pass
over the listing `["ABCD9999.JPG"]` downloads the file and returns the very
same state, so the repeated pass downloads the same file again — a second
fetch of an already-retrieved file, refuting idempotence as stated. -/
theorem spec_C1_counterexample :
    (getNewPhotosAux true (fun _ => true) freshEngineState
        ["ABCD0050.JPG", "ABCD9999.JPG"]).state = ⟨some 50, some 9999, true⟩ ∧
    (getNewPhotosAux true (fun _ => true) ⟨some 50, some 9999, true⟩
        ["ABCD9999.JPG"]).state = ⟨some 50, some 9999, true⟩ ∧
    (getNewPhotosAux true (fun _ => true) ⟨some 50, some 9999, true⟩
        ["ABCD9999.JPG"]).attempts = ["ABCD9999.JPG"] ∧
    (getNewPhotosAux true (fun _ => true)
        (getNewPhotosAux true (fun _ => true) ⟨some 50, some 9999, true⟩
          ["ABCD9999.JPG"]).state
        ["ABCD9999.JPG"]).attempts = ["ABCD9999.JPG"] := by
  refine ⟨by decide, by decide, by decide, by decide⟩

/-- C3 (amended): on an eligible file whose number equals `firstSeen`, the
FluCard engine signals `CycleComplete` and stops the batch without fetching
that file or any later item and without changing the state; the PentaxWiFi
engine does not halt there — the beep and the `break` are commented out
(k1Import.py:369-372) — and instead passes the file to the download
callback like any other eligible item. -/
theorem spec_C3_amended (f : String → Bool) (s : FluBase) (url : String) (rest : List String)
    (n : Int) (hext : extractSequence (basename url) = some n)
    (helig : downloadFlag s n = true) (hfirst : n = sentinel s.firstFile) :
    fluGetNewPhotos f s (url :: rest) = ⟨s, [], .cycleComplete, [], url :: rest⟩ ∧
    (k1GetNewPhotos f s (url :: rest)).attempts.head? = some url := by
  subst hfirst
  constructor
  · simp [fluGetNewPhotos, getNewPhotosAux, hext, helig]
  · by_cases hfu : f url = true <;>
      simp [k1GetNewPhotos, getNewPhotosAux, hext, helig, hfu]

/-- C3 witness: with `rollover` set, `lastSeen = 9999` and
`firstSeen = 50`, the eligible file `ABCD0050.JPG` halts the FluCard batch
with `CycleComplete`, unfetched, state unchanged; the PentaxWiFi engine
fetches it. -/
theorem spec_C3_witness :
    fluGetNewPhotos (fun _ => true) ⟨some 50, some 9999, true⟩ ["ABCD0050.JPG"] =
      ⟨⟨some 50, some 9999, true⟩, [], .cycleComplete, [], ["ABCD0050.JPG"]⟩ ∧
    (k1GetNewPhotos (fun _ => true) ⟨some 50, some 9999, true⟩
        ["ABCD0050.JPG"]).attempts.head? = some "ABCD0050.JPG" :=
  spec_C3_amended (fun _ => true) ⟨some 50, some 9999, true⟩ "ABCD0050.JPG" [] 50
    (by decide) (by decide) (by decide)

/-- C3 counterexample: the PentaxWiFi engine, on an eligible file numbered
exactly `firstSeen` (50, with the state pinned at `lastSeen = 9999`),
downloads the file and records it — the batch neither halts nor leaves the
state unchanged, refuting the claim for `PentaxWiFi.get_new_photos`. -/
theorem spec_C3_counterexample :
    k1GetNewPhotos (fun _ => true) ⟨some 50, some 9999, true⟩ ["ABCD0050.JPG"] =
      ⟨⟨some 50, some 50, true⟩, ["ABCD0050.JPG"], .finished,
        [⟨some 50, some 50, true⟩], []⟩ := by decide

/-- C4 (amended): if a download fails during a pass, the pass stops at that
item: the final state is exactly the state after the last successful
download (the failed and later items leave no trace), the attempted
downloads are the successful prefix followed by the one failing item, and —
provided the starting state is not pinned and no file numbered 9999 was
downloaded — a repeat poll over the same listing behaves exactly as
processing the unprocessed remainder, whose head is the failed item, so it
re-attempts the failed item first and then the later items in order.
Without the 9999 proviso a repeat poll can halt with `CycleComplete` before
reaching the failed item: see the counterexample. -/
theorem spec_C4_amended (halt : Bool) (f : String → Bool) (s : FluBase) (l : List String)
    (hpin : s.rollover = true → sentinel s.lastFile ≠ 9999)
    (h9999 : ∀ t ∈ (getNewPhotosAux halt f s l).trace, t.lastFile ≠ some 9999)
    (hstop : (getNewPhotosAux halt f s l).stop = RunStop.fetchFailed) :
    ((s :: (getNewPhotosAux halt f s l).trace).getLast? =
      some (getNewPhotosAux halt f s l).state) ∧
    (∃ us u rest2, (getNewPhotosAux halt f s l).attempts = us ++ [u] ∧ f u = false ∧
      (∀ v ∈ us, f v = true) ∧ (getNewPhotosAux halt f s l).pending = u :: rest2) ∧
    (∀ f2 : String → Bool,
      getNewPhotosAux halt f2 (getNewPhotosAux halt f s l).state l =
        getNewPhotosAux halt f2 (getNewPhotosAux halt f s l).state
          (getNewPhotosAux halt f s l).pending) ∧
    (∀ f2 : String → Bool,
      (getNewPhotosAux halt f2 (getNewPhotosAux halt f s l).state l).attempts.head? =
        (getNewPhotosAux halt f s l).pending.head?) := by
  obtain ⟨us, u, rest2, n2, hatt, hfu, hus, hpend, hext2, hd2, hg2⟩ :=
    run_failed_char halt f l s hstop
  refine ⟨run_state_trace halt f l s, ⟨us, u, rest2, hatt, hfu, hus, hpend⟩,
    rerun_pending halt f l s hpin h9999, ?_⟩
  intro f2
  rw [rerun_pending halt f l s hpin h9999 f2, hpend]
  by_cases hfu2 : f2 u = true <;>
    simp [getNewPhotosAux, hext2, hd2, hg2, hfu2]

/-- C4 witness: with listing `[101, 102, 103]` and the download of 102
failing, the state records only 101, and a repeat poll (all downloads now
succeeding) behaves exactly as processing `[102, 103]`, attempting 102
first. -/
theorem spec_C4_witness :
    ((freshEngineState :: (getNewPhotosAux true (fun u => u != "ABCD0102.JPG")
        freshEngineState ["ABCD0101.JPG", "ABCD0102.JPG", "ABCD0103.JPG"]).trace).getLast? =
      some (getNewPhotosAux true (fun u => u != "ABCD0102.JPG") freshEngineState
        ["ABCD0101.JPG", "ABCD0102.JPG", "ABCD0103.JPG"]).state) ∧
    (getNewPhotosAux true (fun _ => true)
        (getNewPhotosAux true (fun u => u != "ABCD0102.JPG") freshEngineState
          ["ABCD0101.JPG", "ABCD0102.JPG", "ABCD0103.JPG"]).state
        ["ABCD0101.JPG", "ABCD0102.JPG", "ABCD0103.JPG"] =
      getNewPhotosAux true (fun _ => true)
        (getNewPhotosAux true (fun u => u != "ABCD0102.JPG") freshEngineState
          ["ABCD0101.JPG", "ABCD0102.JPG", "ABCD0103.JPG"]).state
        (getNewPhotosAux true (fun u => u != "ABCD0102.JPG") freshEngineState
          ["ABCD0101.JPG", "ABCD0102.JPG", "ABCD0103.JPG"]).pending) ∧
    ((getNewPhotosAux true (fun _ => true)
        (getNewPhotosAux true (fun u => u != "ABCD0102.JPG") freshEngineState
          ["ABCD0101.JPG", "ABCD0102.JPG", "ABCD0103.JPG"]).state
        ["ABCD0101.JPG", "ABCD0102.JPG", "ABCD0103.JPG"]).attempts.head? =
      (getNewPhotosAux true (fun u => u != "ABCD0102.JPG") freshEngineState
        ["ABCD0101.JPG", "ABCD0102.JPG", "ABCD0103.JPG"]).pending.head?) :=
  ⟨(spec_C4_amended true (fun u => u != "ABCD0102.JPG") freshEngineState
      ["ABCD0101.JPG", "ABCD0102.JPG", "ABCD0103.JPG"] (by decide) (by decide) (by decide)).1,
   (spec_C4_amended true (fun u => u != "ABCD0102.JPG") freshEngineState
      ["ABCD0101.JPG", "ABCD0102.JPG", "ABCD0103.JPG"] (by decide) (by decide) (by decide)).2.2.1
     (fun _ => true),
   (spec_C4_amended true (fun u => u != "ABCD0102.JPG") freshEngineState
      ["ABCD0101.JPG", "ABCD0102.JPG", "ABCD0103.JPG"] (by decide) (by decide) (by decide)).2.2.2
     (fun _ => true)⟩

/-- C4 counterexample: from a fresh state, the listing
`[100, 9999, 5]` with the download of 5 failing ends in a failed pass whose
unprocessed remainder is `[5]`; but the repeat poll over the same listing
attempts nothing — it halts with `CycleComplete` at item 100 (the pinned
state makes 100 eligible and equal to `firstSeen`) and never re-attempts
the failed item, refuting the re-attempt clause as stated. -/
theorem spec_C4_counterexample :
    (getNewPhotosAux true (fun u => u != "ABCD0005.JPG") freshEngineState
        ["ABCD0100.JPG", "ABCD9999.JPG", "ABCD0005.JPG"]).stop = RunStop.fetchFailed ∧
    (getNewPhotosAux true (fun u => u != "ABCD0005.JPG") freshEngineState
        ["ABCD0100.JPG", "ABCD9999.JPG", "ABCD0005.JPG"]).pending = ["ABCD0005.JPG"] ∧
    (getNewPhotosAux true (fun _ => true)
        (getNewPhotosAux true (fun u => u != "ABCD0005.JPG") freshEngineState
          ["ABCD0100.JPG", "ABCD9999.JPG", "ABCD0005.JPG"]).state
        ["ABCD0100.JPG", "ABCD9999.JPG", "ABCD0005.JPG"]).attempts = [] ∧
    (getNewPhotosAux true (fun _ => true)
        (getNewPhotosAux true (fun u => u != "ABCD0005.JPG") freshEngineState
          ["ABCD0100.JPG", "ABCD9999.JPG", "ABCD0005.JPG"]).state
        ["ABCD0100.JPG", "ABCD9999.JPG", "ABCD0005.JPG"]).stop = RunStop.cycleComplete := by
  refine ⟨by decide, by decide, by decide, by decide⟩

/-- C5: rollover is set exactly on a successful download of a file
numbered 9999 (the update sets the flag iff it was set or the number is
9999, and a fresh setting forces `lastSeen = 9999`); consequently in every
state reachable from a fresh state by any sequence of import passes,
rollover is true only if some persisted state along the way had
`lastSeen = 9999`. -/
theorem spec_C5_rollover :
    (∀ (s : FluBase) (n : Int),
      ((applySuccess s n).rollover = true ↔ (s.rollover = true ∨ n = 9999))) ∧
    (∀ (s : FluBase) (n : Int), s.rollover = false →
      (applySuccess s n).rollover = true → (applySuccess s n).lastFile = some 9999) ∧
    (∀ (halt : Bool) (ps : List ((String → Bool) × List String)),
      (runPasses halt freshEngineState ps).1.rollover = true →
      ∃ t ∈ (runPasses halt freshEngineState ps).2, t.lastFile = some 9999) := by
  refine ⟨applySuccess_rollover, ?_, ?_⟩
  · intro s n hro h
    rcases (applySuccess_rollover s n).mp h with h2 | h2
    · rw [hro] at h2
      exact absurd h2 (by simp)
    · subst h2
      rfl
  · intro halt ps h
    rcases runPasses_rollover halt ps freshEngineState h with h2 | h2
    · exact absurd h2 (by simp [freshEngineState])
    · exact h2

/-- C5 witness: one pass downloading `ABCD9999.JPG` from a fresh state sets
rollover, and its persisted trace indeed contains a state with
`lastSeen = 9999`. -/
theorem spec_C5_witness :
    ((applySuccess freshEngineState 9999).rollover = true ↔
      (freshEngineState.rollover = true ∨ (9999 : Int) = 9999)) ∧
    (applySuccess freshEngineState 9999).lastFile = some 9999 ∧
    ∃ t ∈ (runPasses true freshEngineState [((fun _ => true), ["ABCD9999.JPG"])]).2,
      t.lastFile = some 9999 :=
  ⟨spec_C5_rollover.1 freshEngineState 9999,
   spec_C5_rollover.2.1 freshEngineState 9999 rfl (by decide),
   spec_C5_rollover.2.2 true [((fun _ => true), ["ABCD9999.JPG"])] (by decide)⟩

/-- C6: staleness reset.  On loading an existing, parseable state file
(without `--clean`, with the destination directory resolvable), if the
current time minus the stored `lastSeconds` is at least 172800 seconds the
returned state is a fresh one — no first, no last, no rollover,
`lastSeconds` stamped to now — and if the gap is strictly smaller the
stored state is returned unchanged.  Both loaders agree. -/
theorem spec_C6_staleness (d : StoredState) (destdirArg : String) (now : Int) (dd : String)
    (hdest : destSel d destdirArg = some dd) :
    (172800 ≤ now - d.lastSeconds →
      get_flu_base_data (.valid d) false destdirArg now = .ok (new_flubase_file now dd) dd ∧
      get_k1_base_data (.valid d) false destdirArg now = .ok (new_flubase_file now dd) dd) ∧
    (now - d.lastSeconds < 172800 →
      get_flu_base_data (.valid d) false destdirArg now = .ok d dd ∧
      get_k1_base_data (.valid d) false destdirArg now = .ok d dd) := by
  unfold destSel at hdest
  constructor
  · intro h
    constructor <;> simp [get_flu_base_data, get_k1_base_data, hdest, h]
  · intro h
    constructor <;>
    · simp [get_flu_base_data, get_k1_base_data, hdest]
      intro h2
      exact absurd h2 (by omega)

/-- C6 witness: a state stored at time 0 is replaced by a fresh one when
loaded at time 172800 and kept unchanged when loaded at time 172799. -/
theorem spec_C6_witness :
    (get_flu_base_data (.valid ⟨some 3, some 7, true, 0, some "/p"⟩) false "/q" 172800 =
        .ok (new_flubase_file 172800 "/q") "/q" ∧
      get_k1_base_data (.valid ⟨some 3, some 7, true, 0, some "/p"⟩) false "/q" 172800 =
        .ok (new_flubase_file 172800 "/q") "/q") ∧
    (get_flu_base_data (.valid ⟨some 3, some 7, true, 0, some "/p"⟩) false "/q" 172799 =
        .ok ⟨some 3, some 7, true, 0, some "/p"⟩ "/q" ∧
      get_k1_base_data (.valid ⟨some 3, some 7, true, 0, some "/p"⟩) false "/q" 172799 =
        .ok ⟨some 3, some 7, true, 0, some "/p"⟩ "/q") :=
  ⟨(spec_C6_staleness ⟨some 3, some 7, true, 0, some "/p"⟩ "/q" 172800 "/q"
      (by decide)).1 (by decide),
   (spec_C6_staleness ⟨some 3, some 7, true, 0, some "/p"⟩ "/q" 172799 "/q"
      (by decide)).2 (by decide)⟩

/-- C7 (amended): when the state file exists but cannot be parsed, both
loaders raise — the `json.load` error propagates uncaught, terminating the
program — rather than treating the store as absent and synthesizing a
fresh state. -/
theorem spec_C7_amended (destdirArg : String) (now : Int) :
    get_flu_base_data .corrupt false destdirArg now = .err .jsonError ∧
    get_k1_base_data .corrupt false destdirArg now = .err .jsonError := by
  constructor <;> simp [get_flu_base_data, get_k1_base_data]

/-- C7 counterexample: a corrupt store makes the load raise, while an
absent store (same arguments) yields a fresh state — the two cases are not
treated alike, and the corrupt case is fatal, refuting the claim. -/
theorem spec_C7_counterexample :
    get_flu_base_data .corrupt false "/photos" 0 = .err .jsonError ∧
    get_k1_base_data .corrupt false "/photos" 0 = .err .jsonError ∧
    get_flu_base_data .absent false "/photos" 0 =
      .ok (new_flubase_file 0 "/photos") "/photos" ∧
    get_flu_base_data .corrupt false "/photos" 0 ≠
      get_flu_base_data .absent false "/photos" 0 := by
  refine ⟨by decide, by decide, by decide, by decide⟩

/-- C8 (amended): when the persisted file exists but has no `destDir` field
and no destination was supplied on the command line, both loaders fail — a
`KeyError` in fluImport, an explicit `AttributeError` in k1Import — instead
of treating the situation as "no prior state". -/
theorem spec_C8_amended (d : StoredState) (now : Int) (h : d.destDir = none) :
    get_flu_base_data (.valid d) false "None" now = .err .destDirKeyError ∧
    get_k1_base_data (.valid d) false "None" now = .err .destDirKeyError := by
  constructor <;> simp [get_flu_base_data, get_k1_base_data, h]

/-- C8 witness: a stored dictionary without `destDir`, loaded with no `-d`
argument, makes both loaders raise. -/
theorem spec_C8_witness :
    get_flu_base_data (.valid ⟨none, none, false, 0, none⟩) false "None" 100 =
      .err .destDirKeyError ∧
    get_k1_base_data (.valid ⟨none, none, false, 0, none⟩) false "None" 100 =
      .err .destDirKeyError :=
  spec_C8_amended ⟨none, none, false, 0, none⟩ 100 rfl

/-- C8 counterexample: a concrete stored state lacking `destDir`, loaded
with no `-d` argument, produces an error — the load fails rather than
treating the file as absent, refuting the claim. -/
theorem spec_C8_counterexample :
    get_flu_base_data (.valid ⟨some 1, some 2, false, 0, none⟩) false "None" 100 =
      .err .destDirKeyError ∧
    get_k1_base_data (.valid ⟨some 1, some 2, false, 0, none⟩) false "None" 100 =
      .err .destDirKeyError := by
  refine ⟨by decide, by decide⟩
